import Mathlib

/-!
Logpush job resource (`cloudflare/resource_cloudflare_logpush_job.go`).

A shallow embedding of the four lifecycle callbacks of the Logpush job resource and of
`getJobFromResource`, together with the library behaviour they rely on:

* `strconv.Atoi` / `strconv.Itoa` on a 64-bit `int` (base 10 only),
* `strings.Contains`,
* the schema-typed attribute bag `schema.ResourceData` (`Id`, `SetId`, `Set`; a typed
  `Get` is the projection of the attribute),
* the remote client `cloudflare.API`, kept abstract: every method is a function of the
  remote state, so that all behaviours of the remote side are covered.

Go errors are represented by their message text (`Option String`, `none` for `nil`).
Calls to `log.Printf` write to the process log only and are not part of the model.
-/

namespace strconv

/-- The two error kinds a `*strconv.NumError` carries for base-10 parsing. -/
inductive NumError where
  | ErrSyntax
  | ErrRange
  deriving DecidableEq, Repr

/-- Largest `uint64`, `1<<64 - 1`. -/
def maxUint64 : Nat := 18446744073709551615

/-- Conversion `int64(x)` of an integer value: two's complement wrap-around to 64 bits. -/
def toInt64 (x : Int) : Int :=
  (x + 9223372036854775808) % 18446744073709551616 - 9223372036854775808

/-- The digit loop of `strconv.ParseUint(s, 10, 64)`, started with accumulator `n`.
Any byte outside `'0'..'9'` is a syntax error with value 0 (letters decode to a digit
value of at least 10, the underscore is only accepted for base 0); an overflow stops the
scan at once with the largest value and a range error. -/
def parseUintLoop : Nat → List Char → Nat × Option NumError
  | n, [] => (n, none)
  | n, c :: cs =>
    if c.isDigit then
      let d := c.toNat - 48
      if n ≥ maxUint64 / 10 + 1 then
        (maxUint64, some NumError.ErrRange)
      else
        let m := (n * 10) % 18446744073709551616
        let n1 := (m + d) % 18446744073709551616
        if n1 < m ∨ n1 > maxUint64 then
          (maxUint64, some NumError.ErrRange)
        else
          parseUintLoop n1 cs
    else
      (0, some NumError.ErrSyntax)

/-- `strconv.ParseUint(s, 10, 64)` on the characters of `s`. -/
def ParseUint (s : List Char) : Nat × Option NumError :=
  match s with
  | [] => (0, some NumError.ErrSyntax)
  | _ => parseUintLoop 0 s

/-- `strconv.ParseInt(s, 10, 64)` on the characters of `s`: an optional leading sign, then
`ParseUint`; a syntax error gives 0, a value outside the signed range gives the nearest
bound together with a range error. -/
def ParseInt (s : List Char) : Int × Option NumError :=
  match s with
  | [] => (0, some NumError.ErrSyntax)
  | c :: cs =>
    let neg := c == '-'
    let body := if c == '+' then cs else if c == '-' then cs else c :: cs
    match ParseUint body with
    | (_, some NumError.ErrSyntax) => (0, some NumError.ErrSyntax)
    | (un, _) =>
      if !neg ∧ un ≥ 9223372036854775808 then
        (9223372036854775807, some NumError.ErrRange)
      else if neg ∧ un > 9223372036854775808 then
        (-9223372036854775808, some NumError.ErrRange)
      else
        let n := toInt64 (un : Int)
        (if neg then toInt64 (-n) else n, none)

/-- `strconv.Atoi(s)`, which is `ParseInt(s, 10, 0)` converted to `int` (64 bits wide). -/
def Atoi (s : String) : Int × Option NumError :=
  ParseInt s.toList

/-- The value a run of decimal digits adds to the accumulator `n`. -/
def digitsFrom (n : Nat) (cs : List Char) : Nat :=
  cs.foldl (fun a c => a * 10 + (c.toNat - 48)) n

/-- A string of characters split into its optional leading sign (`true` for a minus sign)
and the rest. -/
def splitSign (cs : List Char) : Bool × List Char :=
  match cs with
  | [] => (false, [])
  | c :: r => if c = '+' then (false, r) else if c = '-' then (true, r) else (false, c :: r)

/-- In the words of the spec, "a valid decimal integer" and "the integer it denotes": an
optional sign followed by one or more decimal digits, read in base 10. `none` when the
string is not of that form. -/
def decimalValue (s : String) : Option Int :=
  let body := (splitSign s.toList).2
  if body ≠ [] ∧ body.all Char.isDigit = true then
    some (if (splitSign s.toList).1 then -(digitsFrom 0 body : Int) else (digitsFrom 0 body : Int))
  else none

/-- The value of the run of decimal digits that follows the optional sign of `s`. -/
def leadingValue (s : String) : Nat :=
  digitsFrom 0 ((splitSign s.toList).2.takeWhile Char.isDigit)

/-- The sign handling of `ParseInt` applied to the result of `ParseUint`. -/
def applySign (neg : Bool) (r : Nat × Option NumError) : Int × Option NumError :=
  match r with
  | (_, some NumError.ErrSyntax) => (0, some NumError.ErrSyntax)
  | (un, _) =>
    if !neg ∧ un ≥ 9223372036854775808 then
      (9223372036854775807, some NumError.ErrRange)
    else if neg ∧ un > 9223372036854775808 then
      (-9223372036854775808, some NumError.ErrRange)
    else
      let n := toInt64 (un : Int)
      (if neg then toInt64 (-n) else n, none)

/-- The character of a decimal digit value. -/
def digitChar (d : Nat) : Char :=
  Char.ofNat (48 + d)

/-- The digit loop of `formatBits` for base 10: the digits of `u` are put in front of
`acc`, least significant first. The fuel bounds the number of digits produced. -/
def formatBits : Nat → Nat → List Char → List Char
  | 0, _, acc => acc
  | fuel + 1, u, acc =>
    if u < 10 then digitChar u :: acc
    else formatBits fuel (u / 10) (digitChar (u % 10) :: acc)

/-- `strconv.FormatInt(i, 10)` as a list of characters. -/
def FormatInt (i : Int) : List Char :=
  if i < 0 then '-' :: formatBits (i.natAbs + 1) i.natAbs []
  else formatBits (i.natAbs + 1) i.natAbs []

/-- `strconv.Itoa(i)`, which is `FormatInt(int64(i), 10)`. -/
def Itoa (i : Int) : String :=
  String.mk (FormatInt i)

end strconv

namespace strings

/-- Whether the character list `sub` occurs in `s` as a contiguous block. -/
def containsChars : List Char → List Char → Bool
  | [], sub => sub.isEmpty
  | c :: cs, sub => sub.isPrefixOf (c :: cs) || containsChars cs sub

/-- `strings.Contains(s, substr)`. -/
def Contains (s substr : String) : Bool :=
  containsChars s.toList substr.toList

end strings

namespace fmt

/-- Rendering of the quoting verb of `fmt.Errorf`, left abstract: `string` is the output
of the verb for a string operand, `int` its output for an integer operand. -/
structure QuoteVerb where
  string : String → String
  int : Int → String

end fmt

namespace schema

/-- A value handed to `ResourceData.Set` (Go: `interface{}`). `Z` is the type of zone
identifiers of the remote client. -/
inductive Value (Z : Type) where
  | string (s : String)
  | bool (b : Bool)
  | zoneID (z : Z)

/-- The resource data of one Logpush job: the handle ID and one typed attribute per key of
the schema declared by `resourceCloudflareLogpushJob` (`zone`, `enabled`, `name`,
`logpull_options`, `destination_conf`, `ownership_challenge`). Reading attribute `k` with
its schema type, Go `d.Get(k).(T)`, is the projection of the field `k`. -/
structure ResourceData where
  id : String
  zone : String
  enabled : Bool
  name : String
  logpull_options : String
  destination_conf : String
  ownership_challenge : String
  deriving DecidableEq, Repr

/-- Go `d.Id()`. -/
def ResourceData.Id (d : ResourceData) : String :=
  d.id

/-- Go `d.SetId(v)`. -/
def ResourceData.SetId (d : ResourceData) (v : String) : ResourceData :=
  { d with id := v }

/-- Go `d.Set(key, value)`: writes the attribute when `key` is in the schema and `value`
has the type the schema gives it; otherwise nothing is written and an error is returned. -/
def ResourceData.Set {Z : Type} (d : ResourceData) (key : String) (value : Value Z) :
    ResourceData × Option String :=
  match key, value with
  | "zone", Value.string s => ({ d with zone := s }, none)
  | "enabled", Value.bool b => ({ d with enabled := b }, none)
  | "name", Value.string s => ({ d with name := s }, none)
  | "logpull_options", Value.string s => ({ d with logpull_options := s }, none)
  | "destination_conf", Value.string s => ({ d with destination_conf := s }, none)
  | "ownership_challenge", Value.string s => ({ d with ownership_challenge := s }, none)
  | _, _ => (d, some ("Invalid address to set: " ++ key))

end schema

namespace cloudflare

open schema

/-- The record `cloudflare.LogpushJob` of the remote client, with the fields this resource
uses. -/
structure LogpushJob where
  ID : Int
  Enabled : Bool
  Name : String
  LogpullOptions : String
  DestinationConf : String
  OwnershipChallenge : String
  deriving DecidableEq, Repr

/-- The remote client `*cloudflare.API`, as far as this resource calls it. `Z` is the type
of zone identifiers and `σ` the state of the remote side; each method maps the state before
the call to its result and the state after it. A Go result `(v, err)` with `err != nil` is
`Except.error` of the text of `err`. -/
structure API (Z σ : Type) where
  ZoneIDByName : String → σ → Except String Z × σ
  CreateLogpushJob : Z → cloudflare.LogpushJob → σ → Except String cloudflare.LogpushJob × σ
  UpdateLogpushJob : Z → Int → cloudflare.LogpushJob → σ → Option String × σ
  DeleteLogpushJob : Z → Int → σ → Option String × σ
  LogpushJob : Z → Int → σ → Except String cloudflare.LogpushJob × σ

/-- What a lifecycle callback leaves behind: the resource data (Go mutates it in place),
the returned `error` and the state of the remote side. -/
structure Outcome (σ : Type) where
  d : ResourceData
  err : Option String
  remote : σ

/-- Source lines 50-66. The error of `strconv.Atoi` is formatted and dropped. -/
def getJobFromResource (d : ResourceData) : LogpushJob :=
  let id := (strconv.Atoi d.Id).1
  { ID := id
    Enabled := d.enabled
    Name := d.name
    LogpullOptions := d.logpull_options
    DestinationConf := d.destination_conf
    OwnershipChallenge := d.ownership_challenge }

/-- Source lines 68-100. -/
def resourceCloudflareLogpushJobRead {Z σ : Type} (q : fmt.QuoteVerb) (client : API Z σ)
    (d : ResourceData) (s : σ) : Outcome σ :=
  let jobId := (strconv.Atoi d.Id).1
  let zoneName := d.zone
  match client.ZoneIDByName zoneName s with
  | (Except.error err, s1) =>
    ⟨d, some ("error finding zone " ++ q.string zoneName ++ ": " ++ err), s1⟩
  | (Except.ok zoneId, s1) =>
    match client.LogpushJob zoneId jobId s1 with
    | (Except.error err, s2) =>
      if strings.Contains err "404" then
        ⟨d, none, s2⟩
      else
        ⟨d, some ("error finding logpush job " ++ q.int jobId ++ ": " ++ err), s2⟩
    | (Except.ok job, s2) =>
      if job.ID = 0 then
        ⟨d.SetId "", none, s2⟩
      else
        let d1 := (d.Set "name" (Value.string job.Name : Value Z)).1
        let d2 := (d1.Set "enabled" (Value.bool job.Enabled : Value Z)).1
        let d3 := (d2.Set "logpull_options" (Value.string job.LogpullOptions : Value Z)).1
        let d4 := (d3.Set "destination_conf" (Value.string job.DestinationConf : Value Z)).1
        let d5 := (d4.Set "ownership_challenge" (Value.string job.OwnershipChallenge : Value Z)).1
        ⟨d5, none, s2⟩

/-- Source lines 102-130. -/
def resourceCloudflareLogpushJobCreate {Z σ : Type} (q : fmt.QuoteVerb) (client : API Z σ)
    (d : ResourceData) (s : σ) : Outcome σ :=
  let job := getJobFromResource d
  let zoneName := d.zone
  match client.ZoneIDByName zoneName s with
  | (Except.error err, s1) =>
    ⟨d, some ("error finding zone " ++ q.string zoneName ++ ": " ++ err), s1⟩
  | (Except.ok zoneId, s1) =>
    let d1 := (d.Set "zone_id" (Value.zoneID zoneId)).1
    match client.CreateLogpushJob zoneId job s1 with
    | (Except.error _, s2) => ⟨d1, some "error creating logpush job", s2⟩
    | (Except.ok j, s2) =>
      if j.ID = 0 then
        ⟨d1, some "failed to find ID in Create response; resource was empty", s2⟩
      else
        ⟨d1.SetId (strconv.Itoa j.ID), none, s2⟩

/-- Source lines 132-152. -/
def resourceCloudflareLogpushJobUpdate {Z σ : Type} (q : fmt.QuoteVerb) (client : API Z σ)
    (d : ResourceData) (s : σ) : Outcome σ :=
  let job := getJobFromResource d
  let zoneName := d.zone
  match client.ZoneIDByName zoneName s with
  | (Except.error err, s1) =>
    ⟨d, some ("error finding zone " ++ q.string zoneName ++ ": " ++ err), s1⟩
  | (Except.ok zoneId, s1) =>
    let d1 := (d.Set "zone_id" (Value.zoneID zoneId)).1
    match client.UpdateLogpushJob zoneId job.ID job s1 with
    | (some _, s2) => ⟨d1, some ("error updating logpush job: " ++ strconv.Itoa job.ID), s2⟩
    | (none, s2) => ⟨d1, none, s2⟩

/-- Source lines 154-173. -/
def resourceCloudflareLogpushJobDelete {Z σ : Type} (q : fmt.QuoteVerb) (client : API Z σ)
    (d : ResourceData) (s : σ) : Outcome σ :=
  let job := getJobFromResource d
  let zoneName := d.zone
  match client.ZoneIDByName zoneName s with
  | (Except.error err, s1) =>
    ⟨d, some ("error finding zone " ++ q.string zoneName ++ ": " ++ err), s1⟩
  | (Except.ok zoneId, s1) =>
    let d1 := (d.Set "zone_id" (Value.zoneID zoneId)).1
    match client.DeleteLogpushJob zoneId job.ID s1 with
    | (some _, s2) => ⟨d1, some ("error deleting logpush job: " ++ strconv.Itoa job.ID), s2⟩
    | (none, s2) => ⟨d1, none, s2⟩

/-- One call received by the remote client, with its arguments. -/
inductive Call (Z : Type) where
  | ZoneIDByName (zoneName : String)
  | CreateLogpushJob (zoneID : Z) (job : cloudflare.LogpushJob)
  | UpdateLogpushJob (zoneID : Z) (jobID : Int) (job : cloudflare.LogpushJob)
  | DeleteLogpushJob (zoneID : Z) (jobID : Int)
  | LogpushJob (zoneID : Z) (jobID : Int)

/-- The client `client` with a journal: it answers as `client` does and appends every call
it receives to the list kept next to the remote state. -/
def API.recorded {Z σ : Type} (client : API Z σ) : API Z (σ × List (Call Z)) where
  ZoneIDByName name st :=
    ((client.ZoneIDByName name st.1).1,
      ((client.ZoneIDByName name st.1).2, st.2 ++ [Call.ZoneIDByName name]))
  CreateLogpushJob z job st :=
    ((client.CreateLogpushJob z job st.1).1,
      ((client.CreateLogpushJob z job st.1).2, st.2 ++ [Call.CreateLogpushJob z job]))
  UpdateLogpushJob z jobID job st :=
    ((client.UpdateLogpushJob z jobID job st.1).1,
      ((client.UpdateLogpushJob z jobID job st.1).2, st.2 ++ [Call.UpdateLogpushJob z jobID job]))
  DeleteLogpushJob z jobID st :=
    ((client.DeleteLogpushJob z jobID st.1).1,
      ((client.DeleteLogpushJob z jobID st.1).2, st.2 ++ [Call.DeleteLogpushJob z jobID]))
  LogpushJob z jobID st :=
    ((client.LogpushJob z jobID st.1).1,
      ((client.LogpushJob z jobID st.1).2, st.2 ++ [Call.LogpushJob z jobID]))

/-- State of the stub remote store of the scenarios in section 8 of the specification: the
zones by name, the stored jobs with the zone they belong to, and the ID the next created
job receives. -/
structure StubStore where
  zones : List (String × Int)
  jobs : List (Int × LogpushJob)
  nextID : Int

/-- The job stored under a zone and a job ID, if any. -/
def StubStore.find (st : StubStore) (zoneID jobID : Int) : Option LogpushJob :=
  (st.jobs.find? (fun p => p.1 == zoneID && p.2.ID == jobID)).map Prod.snd

/-- The stored jobs without the one under a zone and a job ID. -/
def StubStore.without (st : StubStore) (zoneID jobID : Int) : List (Int × LogpushJob) :=
  st.jobs.filter (fun p => !(p.1 == zoneID && p.2.ID == jobID))

/-- The stub remote store as a client. A zone resolves when it is listed; create refuses an
empty destination and otherwise stores the submitted record under the next ID; fetch,
update and delete answer with a 404 error when no job is stored under the ID. -/
def stubClient : API Int StubStore where
  ZoneIDByName name st :=
    match st.zones.lookup name with
    | some z => (Except.ok z, st)
    | none => (Except.error "zone could not be found", st)
  CreateLogpushJob z job st :=
    if job.DestinationConf = "" then
      (Except.error "HTTP status 400: destination_conf is required", st)
    else
      (Except.ok { job with ID := st.nextID },
        { st with jobs := (z, { job with ID := st.nextID }) :: st.jobs, nextID := st.nextID + 1 })
  UpdateLogpushJob z jobID job st :=
    match st.find z jobID with
    | some _ => (none, { st with jobs := (z, job) :: st.without z jobID })
    | none => (some "HTTP status 404: job not found", st)
  DeleteLogpushJob z jobID st :=
    match st.find z jobID with
    | some _ => (none, { st with jobs := st.without z jobID })
    | none => (some "HTTP status 404: job not found", st)
  LogpushJob z jobID st :=
    match st.find z jobID with
    | some j => (Except.ok j, st)
    | none => (Except.error "HTTP status 404: job not found", st)

/-- A rendering of the quoting verb that puts the operand between quote characters. -/
def plainQuote : fmt.QuoteVerb where
  string s := String.singleton (Char.ofNat 34) ++ s ++ String.singleton (Char.ofNat 34)
  int n := String.singleton (Char.ofNat 39) ++ strconv.Itoa n ++ String.singleton (Char.ofNat 39)

/-- The configuration of the create scenario of the specification, handle not yet set. -/
def scenarioConfig : ResourceData :=
  { id := ""
    zone := "example.com"
    enabled := false
    name := ""
    logpull_options := ""
    destination_conf := "https://example.com/logs"
    ownership_challenge := "abc123" }

/-- The job the remote side holds once the scenario configuration is created as job 9001. -/
def scenarioJob : LogpushJob :=
  { ID := 9001
    Enabled := false
    Name := ""
    LogpullOptions := ""
    DestinationConf := "https://example.com/logs"
    OwnershipChallenge := "abc123" }

/-- The stub store of the create scenario: `example.com` is zone 42, no job is stored and
the next job receives ID 9001. -/
def scenarioStore : StubStore :=
  { zones := [("example.com", 42)], jobs := [], nextID := 9001 }

/-- The stub store after the scenario job has been created. -/
def scenarioStoreAfter : StubStore :=
  { zones := [("example.com", 42)], jobs := [(42, scenarioJob)], nextID := 9002 }

/-- The stub store of a remote side that answers a create with a job whose ID is 0. -/
def zeroIDStore : StubStore :=
  { zones := [("example.com", 42)], jobs := [], nextID := 0 }

/-- The stub store of a remote side that holds a job record whose ID is 0. -/
def zeroJobStore : StubStore :=
  { zones := [("example.com", 42)], jobs := [(42, { scenarioJob with ID := 0 })], nextID := 1 }

/-- A local state for job 9001 whose configuration differs from the remote record. -/
def presentConfig : ResourceData :=
  { id := "9001"
    zone := "example.com"
    enabled := true
    name := "local-name"
    logpull_options := "fields=RayID"
    destination_conf := "s3://bucket/logs"
    ownership_challenge := "stale" }

/-- The scenario configuration under a zone name the stub store does not list. -/
def unknownZoneConfig : ResourceData :=
  { scenarioConfig with zone := "missing.example" }

/-- The scenario configuration without a destination, which the stub store refuses. -/
def noDestinationConfig : ResourceData :=
  { scenarioConfig with destination_conf := "" }

/-- The scenario configuration with a handle one beyond the largest `int`. -/
def overflowConfig : ResourceData :=
  { scenarioConfig with id := "9223372036854775808" }

/-- The scenario configuration with a handle one below the smallest `int`. -/
def underflowConfig : ResourceData :=
  { scenarioConfig with id := "-9223372036854775809" }

/-- The scenario configuration with a handle of twenty digits followed by a letter. -/
def trailingLetterConfig : ResourceData :=
  { scenarioConfig with id := "99999999999999999999x" }

end cloudflare

/-! ## Lemmas on the library functions -/

namespace strconv

theorem digitsFrom_nil (n : Nat) : digitsFrom n [] = n := rfl

theorem digitsFrom_cons (n : Nat) (c : Char) (cs : List Char) :
    digitsFrom n (c :: cs) = digitsFrom (n * 10 + (c.toNat - 48)) cs := rfl

theorem le_digitsFrom (cs : List Char) : ∀ n : Nat, n ≤ digitsFrom n cs := by
  induction cs with
  | nil => intro n; exact Nat.le_refl n
  | cons c cs ih =>
    intro n
    rw [digitsFrom_cons]
    have h := ih (n * 10 + (c.toNat - 48))
    omega

theorem isDigit_bounds (c : Char) (h : c.isDigit = true) : 48 ≤ c.toNat ∧ c.toNat ≤ 57 := by
  simp only [Char.isDigit, Bool.and_eq_true, decide_eq_true_eq] at h
  obtain ⟨h1, h2⟩ := h
  rw [ge_iff_le, UInt32.le_def] at h1
  rw [UInt32.le_def] at h2
  exact ⟨h1, h2⟩

/-- Full description of the digit loop: a range error as soon as the leading digits exceed
64 bits, otherwise a syntax error at the first non-digit, otherwise the value. -/
theorem parseUintLoop_eq (cs : List Char) : ∀ n : Nat, n ≤ maxUint64 →
    parseUintLoop n cs =
      if digitsFrom n (cs.takeWhile Char.isDigit) > maxUint64 then
        (maxUint64, some NumError.ErrRange)
      else if cs.all Char.isDigit then (digitsFrom n cs, none)
      else (0, some NumError.ErrSyntax) := by
  induction cs with
  | nil =>
    intro n hn
    simp [parseUintLoop, digitsFrom_nil, Nat.not_lt.mpr hn]
  | cons c cs ih =>
    intro n hn
    by_cases hc : c.isDigit = true
    · have hb := isDigit_bounds c hc
      have hmono := le_digitsFrom (cs.takeWhile Char.isDigit) (n * 10 + (c.toNat - 48))
      simp only [maxUint64] at hn hmono ih ⊢
      by_cases hcut : n ≥ 18446744073709551615 / 10 + 1
      · have hover : digitsFrom (n * 10 + (c.toNat - 48)) (cs.takeWhile Char.isDigit)
            > 18446744073709551615 := by omega
        simp [parseUintLoop, hc, List.takeWhile_cons, digitsFrom_cons, maxUint64, hcut, hover]
      · by_cases hfit : n * 10 + (c.toNat - 48) ≤ 18446744073709551615
        · have h1 : (n * 10 + (c.toNat - 48)) % 18446744073709551616
              = n * 10 + (c.toNat - 48) := by omega
          have h2 : n * 10 % 18446744073709551616 = n * 10 := by omega
          have hno : ¬ (n * 10 + (c.toNat - 48) < n * 10 ∨
              n * 10 + (c.toNat - 48) > 18446744073709551615) := by omega
          have hrec := ih (n * 10 + (c.toNat - 48)) hfit
          simp only [parseUintLoop, hc, if_true, maxUint64, hcut, if_false, h2, h1, hno]
          rw [hrec]
          simp [List.takeWhile_cons, hc, digitsFrom_cons, List.all_cons]
        · have hover : digitsFrom (n * 10 + (c.toNat - 48)) (cs.takeWhile Char.isDigit)
              > 18446744073709551615 := by omega
          have h2 : n * 10 % 18446744073709551616 = n * 10 := by omega
          have hwrap : (n * 10 + (c.toNat - 48)) % 18446744073709551616 < n * 10 ∨
              (n * 10 + (c.toNat - 48)) % 18446744073709551616 > 18446744073709551615 := by
            omega
          simp [parseUintLoop, hc, List.takeWhile_cons, digitsFrom_cons, maxUint64, hcut, hover,
            h2, hwrap]
    · have hn2 : ¬ n > 18446744073709551615 := by simp only [maxUint64] at hn; omega
      simp [parseUintLoop, hc, List.takeWhile_cons, digitsFrom_nil, maxUint64, hn2]

theorem isDigit_digitChar (d : Nat) (h : d < 10) : (digitChar d).isDigit = true := by
  unfold digitChar
  interval_cases d <;> decide

theorem toNat_digitChar (d : Nat) (h : d < 10) : (digitChar d).toNat - 48 = d := by
  unfold digitChar
  interval_cases d <;> decide

theorem formatBits_digits (fuel : Nat) : ∀ (u : Nat) (acc : List Char),
    (∀ c ∈ acc, c.isDigit = true) → ∀ c ∈ formatBits fuel u acc, c.isDigit = true := by
  induction fuel with
  | zero => intro u acc h; simpa [formatBits] using h
  | succ fuel ih =>
    intro u acc h
    by_cases hu : u < 10
    · simp only [formatBits, hu, if_true]
      intro c hc
      rcases List.mem_cons.mp hc with rfl | hc
      · exact isDigit_digitChar u hu
      · exact h c hc
    · simp only [formatBits, hu, if_false]
      apply ih
      intro c hc
      rcases List.mem_cons.mp hc with rfl | hc
      · exact isDigit_digitChar (u % 10) (Nat.mod_lt u (by decide))
      · exact h c hc

theorem formatBits_value (fuel : Nat) : ∀ (u : Nat) (acc : List Char), u < fuel →
    digitsFrom 0 (formatBits fuel u acc) = digitsFrom u acc := by
  induction fuel with
  | zero => intro u acc h; omega
  | succ fuel ih =>
    intro u acc h
    by_cases hu : u < 10
    · simp only [formatBits, hu, if_true, digitsFrom_cons, toNat_digitChar u hu]
      simp
    · simp only [formatBits, hu, if_false]
      rw [ih (u / 10) _ (by omega), digitsFrom_cons,
        toNat_digitChar (u % 10) (Nat.mod_lt u (by decide))]
      congr 1
      omega

theorem formatBits_ne_nil (fuel u : Nat) (acc : List Char) :
    formatBits (fuel + 1) u acc ≠ [] := by
  induction fuel generalizing u acc with
  | zero =>
    by_cases hu : u < 10 <;> simp [formatBits, hu]
  | succ fuel ih =>
    by_cases hu : u < 10
    · simp [formatBits, hu]
    · rw [formatBits]
      simp only [hu, if_false]
      exact ih _ _

/-- Parsing the decimal digits of `u` gives `u` back, as long as `u` fits 64 bits. -/
theorem ParseUint_formatBits (u : Nat) (hu : u ≤ maxUint64) :
    ParseUint (formatBits (u + 1) u []) = (u, none) := by
  have hne := formatBits_ne_nil u u []
  have hdig := formatBits_digits (u + 1) u [] (by simp)
  have hval := formatBits_value (u + 1) u [] (by omega)
  have hall : (formatBits (u + 1) u []).all Char.isDigit = true := by
    rw [List.all_eq_true]; exact hdig
  have htake : (formatBits (u + 1) u []).takeWhile Char.isDigit = formatBits (u + 1) u [] := by
    rw [List.takeWhile_eq_self_iff]; exact hdig
  have hloop := parseUintLoop_eq (formatBits (u + 1) u []) 0 (by simp [maxUint64])
  rw [htake, hval, digitsFrom_nil, hall] at hloop
  have hnot : ¬ u > maxUint64 := by omega
  simp only [hnot, if_false, if_true] at hloop
  unfold ParseUint
  split
  · next h => exact absurd h hne
  · exact hloop

/-- The result of `ParseInt` once `ParseUint` has accepted the digits after the sign. -/
theorem ParseInt_of_value (c : Char) (cs : List Char) (un : Nat)
    (h : ParseUint (if c == '+' then cs else if c == '-' then cs else c :: cs) = (un, none)) :
    ParseInt (c :: cs) =
      if (!(c == '-')) ∧ un ≥ 9223372036854775808 then
        (9223372036854775807, some NumError.ErrRange)
      else if (c == '-') ∧ un > 9223372036854775808 then
        (-9223372036854775808, some NumError.ErrRange)
      else
        (if c == '-' then toInt64 (-(toInt64 (un : Int))) else toInt64 (un : Int), none) := by
  simp only [ParseInt, h]

theorem ParseInt_FormatInt (n : Int) (hlo : -9223372036854775808 ≤ n)
    (hhi : n ≤ 9223372036854775807) : ParseInt (FormatInt n) = (n, none) := by
  have hfit : n.natAbs ≤ maxUint64 := by simp only [maxUint64]; omega
  have hparse := ParseUint_formatBits n.natAbs hfit
  have hne := formatBits_ne_nil n.natAbs n.natAbs []
  have hdig := formatBits_digits (n.natAbs + 1) n.natAbs [] (by simp)
  unfold FormatInt
  by_cases hneg : n < 0
  · simp only [hneg, if_true]
    rw [ParseInt_of_value '-' _ n.natAbs (by simpa using hparse)]
    have h4 : ¬ n.natAbs > 9223372036854775808 := by omega
    simp only [beq_self_eq_true, Bool.not_true, Bool.false_eq_true, false_and, true_and, h4,
      if_false, if_true, toInt64, Prod.mk.injEq, and_true]
    omega
  · simp only [hneg, if_false]
    cases hl : formatBits (n.natAbs + 1) n.natAbs [] with
    | nil => exact absurd hl hne
    | cons c cs =>
      have hc : c.isDigit = true := hdig c (by rw [hl]; exact List.mem_cons_self c cs)
      have hb := isDigit_bounds c hc
      have hp : (c == '+') = false := by
        rw [beq_eq_false_iff_ne]; rintro rfl; revert hb; decide
      have hm : (c == '-') = false := by
        rw [beq_eq_false_iff_ne]; rintro rfl; revert hb; decide
      rw [hl] at hparse
      rw [ParseInt_of_value c cs n.natAbs (by simpa [hp, hm] using hparse)]
      have h3 : ¬ n.natAbs ≥ 9223372036854775808 := by omega
      simp only [hm, Bool.not_false, Bool.false_eq_true, false_and, true_and, h3, if_false,
        toInt64, Prod.mk.injEq, and_true]
      omega

/-- Round trip: `Atoi (Itoa n)` is `n` without error for every `n` of type `int`. -/
theorem Atoi_Itoa (n : Int) (hlo : -9223372036854775808 ≤ n) (hhi : n ≤ 9223372036854775807) :
    Atoi (Itoa n) = (n, none) :=
  ParseInt_FormatInt n hlo hhi

theorem ParseInt_split (cs : List Char) :
    ParseInt cs = applySign (splitSign cs).1 (ParseUint (splitSign cs).2) := by
  cases cs with
  | nil => simp [ParseInt, splitSign, ParseUint, applySign]
  | cons c r =>
    by_cases hp : c = '+'
    · subst hp
      simp [ParseInt, splitSign, applySign]
    · by_cases hm : c = '-'
      · subst hm
        simp [ParseInt, splitSign, applySign]
      · simp [ParseInt, splitSign, applySign, hp, hm]

theorem ParseUint_eq (body : List Char) :
    ParseUint body =
      if digitsFrom 0 (body.takeWhile Char.isDigit) > maxUint64 then
        (maxUint64, some NumError.ErrRange)
      else if body ≠ [] ∧ body.all Char.isDigit = true then (digitsFrom 0 body, none)
      else (0, some NumError.ErrSyntax) := by
  cases body with
  | nil => simp [ParseUint, digitsFrom_nil, maxUint64]
  | cons c cs =>
    have h := parseUintLoop_eq (c :: cs) 0 (by simp [maxUint64])
    simp only [ParseUint, h, ne_eq, reduceCtorEq, not_false_eq_true, true_and]

/-- The value of `Atoi` on a valid decimal integer: the integer denoted, cut off at the
bounds of `int`. -/
theorem Atoi_of_decimal (s : String) (v : Int) (h : decimalValue s = some v) :
    (Atoi s).1 = max (-9223372036854775808) (min v 9223372036854775807) := by
  unfold decimalValue at h
  by_cases hb : (splitSign s.toList).2 ≠ [] ∧ (splitSign s.toList).2.all Char.isDigit = true
  · rw [if_pos hb, Option.some.injEq] at h
    have htake : (splitSign s.toList).2.takeWhile Char.isDigit = (splitSign s.toList).2 := by
      rw [List.takeWhile_eq_self_iff]
      exact List.all_eq_true.mp hb.2
    have hU := ParseUint_eq (splitSign s.toList).2
    rw [htake, if_pos hb] at hU
    unfold Atoi
    rw [ParseInt_split, hU]
    generalize digitsFrom 0 (splitSign s.toList).2 = u at h ⊢
    cases hneg : (splitSign s.toList).1 <;> simp only [hneg] at h <;> subst h
    · by_cases h1 : u > maxUint64
      · rw [if_pos h1]
        simp only [maxUint64] at h1 ⊢
        simp [applySign]
        omega
      · rw [if_neg h1]
        simp only [maxUint64] at h1
        by_cases h2 : u ≥ 9223372036854775808
        · simp [applySign, h2]; omega
        · simp [applySign, h2, toInt64]; omega
    · by_cases h1 : u > maxUint64
      · rw [if_pos h1]
        simp only [maxUint64] at h1 ⊢
        simp [applySign]
        omega
      · rw [if_neg h1]
        simp only [maxUint64] at h1
        by_cases h2 : u > 9223372036854775808
        · simp [applySign, h2]; omega
        · simp [applySign, h2, toInt64]; omega
  · rw [if_neg hb] at h
    exact absurd h (by simp)

/-- The value of `Atoi` on a string that is not a decimal integer: 0, unless the leading
digits already exceed 64 bits. -/
theorem Atoi_of_malformed (s : String) (h : decimalValue s = none) :
    (Atoi s).1 =
      if leadingValue s > maxUint64 then
        (if (splitSign s.toList).1 then -9223372036854775808 else 9223372036854775807)
      else 0 := by
  unfold decimalValue at h
  by_cases hb : (splitSign s.toList).2 ≠ [] ∧ (splitSign s.toList).2.all Char.isDigit = true
  · rw [if_pos hb] at h
    exact absurd h (by simp)
  · have hU := ParseUint_eq (splitSign s.toList).2
    rw [if_neg hb] at hU
    unfold Atoi leadingValue
    rw [ParseInt_split, hU]
    by_cases h1 : digitsFrom 0 ((splitSign s.toList).2.takeWhile Char.isDigit) > maxUint64
    · rw [if_pos h1, if_pos h1]
      cases hneg : (splitSign s.toList).1 <;> simp [applySign, maxUint64]
    · rw [if_neg h1, if_neg h1]
      simp [applySign]

end strconv

namespace strings

theorem containsChars_append (pre sub post : List Char) :
    containsChars (pre ++ (sub ++ post)) sub = true := by
  induction pre with
  | nil =>
    cases h : sub ++ post with
    | nil =>
      have hs : sub = [] := (List.append_eq_nil.mp h).1
      subst hs
      rfl
    | cons c cs =>
      have hp : sub.isPrefixOf (c :: cs) = true := by
        rw [← h, List.isPrefixOf_iff_prefix]
        exact List.prefix_append sub post
      simp [containsChars, hp]
  | cons c pre ih =>
    have h : (c :: pre) ++ (sub ++ post) = c :: (pre ++ (sub ++ post)) := rfl
    rw [h, containsChars, ih, Bool.or_true]

theorem Contains_append (pre sub post : String) :
    Contains (pre ++ (sub ++ post)) sub = true := by
  unfold Contains
  simp only [String.toList, String.data_append]
  exact containsChars_append pre.data sub.data post.data

end strings

namespace cloudflare

open schema

theorem set_zone_id {Z : Type} (d : ResourceData) (z : Z) :
    (d.Set "zone_id" (Value.zoneID z)).1 = d := by
  simp [ResourceData.Set]

theorem read_overwrite {Z : Type} (d : ResourceData) (a c e f : String) (b : Bool) :
    (((((d.Set "name" (Value.string a : Value Z)).1.Set "enabled" (Value.bool b : Value Z)).1.Set
      "logpull_options" (Value.string c : Value Z)).1.Set
      "destination_conf" (Value.string e : Value Z)).1.Set
      "ownership_challenge" (Value.string f : Value Z)).1
    = { d with name := a, enabled := b, logpull_options := c, destination_conf := e,
               ownership_challenge := f } := by
  simp [ResourceData.Set]

end cloudflare

namespace cloudflare

open schema

/-- The journal does not change what Create does: against the recording client the resource
data, the error and the remote state are those of the run against the client itself. -/
theorem recorded_create {Z σ : Type} (q : fmt.QuoteVerb) (client : API Z σ)
    (d : ResourceData) (s : σ) (log : List (Call Z)) :
    (resourceCloudflareLogpushJobCreate q client.recorded d (s, log)).d
      = (resourceCloudflareLogpushJobCreate q client d s).d ∧
    (resourceCloudflareLogpushJobCreate q client.recorded d (s, log)).err
      = (resourceCloudflareLogpushJobCreate q client d s).err ∧
    (resourceCloudflareLogpushJobCreate q client.recorded d (s, log)).remote.1
      = (resourceCloudflareLogpushJobCreate q client d s).remote := by
  rcases h1 : client.ZoneIDByName d.zone s with ⟨r, s1⟩
  cases r with
  | error e => simp [resourceCloudflareLogpushJobCreate, API.recorded, h1]
  | ok z =>
    rcases h2 : client.CreateLogpushJob z (getJobFromResource d) s1 with ⟨r2, s2⟩
    cases r2 with
    | error e => simp [resourceCloudflareLogpushJobCreate, API.recorded, h1, h2]
    | ok j =>
      by_cases hj : j.ID = 0 <;>
        simp [resourceCloudflareLogpushJobCreate, API.recorded, h1, h2, hj]

/-- The journal does not change what Read does. -/
theorem recorded_read {Z σ : Type} (q : fmt.QuoteVerb) (client : API Z σ)
    (d : ResourceData) (s : σ) (log : List (Call Z)) :
    (resourceCloudflareLogpushJobRead q client.recorded d (s, log)).d
      = (resourceCloudflareLogpushJobRead q client d s).d ∧
    (resourceCloudflareLogpushJobRead q client.recorded d (s, log)).err
      = (resourceCloudflareLogpushJobRead q client d s).err ∧
    (resourceCloudflareLogpushJobRead q client.recorded d (s, log)).remote.1
      = (resourceCloudflareLogpushJobRead q client d s).remote := by
  rcases h1 : client.ZoneIDByName d.zone s with ⟨r, s1⟩
  cases r with
  | error e => simp [resourceCloudflareLogpushJobRead, API.recorded, h1]
  | ok z =>
    rcases h2 : client.LogpushJob z (strconv.Atoi d.id).1 s1 with ⟨r2, s2⟩
    cases r2 with
    | error e =>
      by_cases he : strings.Contains e "404" = true <;>
        simp [resourceCloudflareLogpushJobRead, API.recorded, ResourceData.Id, h1, h2, he]
    | ok j =>
      by_cases hj : j.ID = 0 <;>
        simp [resourceCloudflareLogpushJobRead, API.recorded, ResourceData.Id, h1, h2, hj]

/-- The journal does not change what Update does. -/
theorem recorded_update {Z σ : Type} (q : fmt.QuoteVerb) (client : API Z σ)
    (d : ResourceData) (s : σ) (log : List (Call Z)) :
    (resourceCloudflareLogpushJobUpdate q client.recorded d (s, log)).d
      = (resourceCloudflareLogpushJobUpdate q client d s).d ∧
    (resourceCloudflareLogpushJobUpdate q client.recorded d (s, log)).err
      = (resourceCloudflareLogpushJobUpdate q client d s).err ∧
    (resourceCloudflareLogpushJobUpdate q client.recorded d (s, log)).remote.1
      = (resourceCloudflareLogpushJobUpdate q client d s).remote := by
  rcases h1 : client.ZoneIDByName d.zone s with ⟨r, s1⟩
  cases r with
  | error e => simp [resourceCloudflareLogpushJobUpdate, API.recorded, h1]
  | ok z =>
    rcases h2 : client.UpdateLogpushJob z (getJobFromResource d).ID (getJobFromResource d) s1
      with ⟨r2, s2⟩
    cases r2 <;> simp [resourceCloudflareLogpushJobUpdate, API.recorded, h1, h2]

/-- The journal does not change what Delete does. -/
theorem recorded_delete {Z σ : Type} (q : fmt.QuoteVerb) (client : API Z σ)
    (d : ResourceData) (s : σ) (log : List (Call Z)) :
    (resourceCloudflareLogpushJobDelete q client.recorded d (s, log)).d
      = (resourceCloudflareLogpushJobDelete q client d s).d ∧
    (resourceCloudflareLogpushJobDelete q client.recorded d (s, log)).err
      = (resourceCloudflareLogpushJobDelete q client d s).err ∧
    (resourceCloudflareLogpushJobDelete q client.recorded d (s, log)).remote.1
      = (resourceCloudflareLogpushJobDelete q client d s).remote := by
  rcases h1 : client.ZoneIDByName d.zone s with ⟨r, s1⟩
  cases r with
  | error e => simp [resourceCloudflareLogpushJobDelete, API.recorded, h1]
  | ok z =>
    rcases h2 : client.DeleteLogpushJob z (getJobFromResource d).ID s1 with ⟨r2, s2⟩
    cases r2 <;> simp [resourceCloudflareLogpushJobDelete, API.recorded, h1, h2]

end cloudflare

/-! ## The claims -/

namespace cloudflare

open schema

/-- C1: when the zone name resolves and the remote create call returns, without error, a job
whose ID is a non-zero integer `n`, `resourceCloudflareLogpushJobCreate` returns no error and
the handle ID afterwards is the decimal string of `n`. -/
theorem create_sets_handle {Z σ : Type} (q : fmt.QuoteVerb) (client : API Z σ)
    (d : ResourceData) (s s1 s2 : σ) (z : Z) (j : LogpushJob) (n : Int)
    (hn : n ≠ 0)
    (hz : client.ZoneIDByName d.zone s = (Except.ok z, s1))
    (hc : client.CreateLogpushJob z (getJobFromResource d) s1 = (Except.ok j, s2))
    (hj : j.ID = n) :
    (resourceCloudflareLogpushJobCreate q client d s).err = none ∧
    (resourceCloudflareLogpushJobCreate q client d s).d.Id = strconv.Itoa n := by
  simp [resourceCloudflareLogpushJobCreate, hz, hc, hn, hj, ResourceData.SetId,
    ResourceData.Id]

/-- Witness of C1, the create scenario: the zone resolves to 42, the remote create returns
job 9001 and the handle becomes "9001". -/
theorem create_sets_handle_witness :
    stubClient.ZoneIDByName scenarioConfig.zone scenarioStore = (Except.ok 42, scenarioStore) ∧
    stubClient.CreateLogpushJob 42 (getJobFromResource scenarioConfig) scenarioStore
      = (Except.ok scenarioJob, scenarioStoreAfter) ∧
    (resourceCloudflareLogpushJobCreate plainQuote stubClient scenarioConfig scenarioStore).err
      = none ∧
    (resourceCloudflareLogpushJobCreate plainQuote stubClient scenarioConfig scenarioStore).d.Id
      = "9001" :=
  ⟨rfl, rfl,
    (create_sets_handle plainQuote stubClient scenarioConfig scenarioStore scenarioStore
      scenarioStoreAfter 42 scenarioJob 9001 (by decide) rfl rfl rfl).1,
    (create_sets_handle plainQuote stubClient scenarioConfig scenarioStore scenarioStore
      scenarioStoreAfter 42 scenarioJob 9001 (by decide) rfl rfl rfl).2.trans (by decide)⟩

/-- C2: when the zone name resolves and the remote create call returns, without error, a job
whose ID is 0, `resourceCloudflareLogpushJobCreate` fails with the malformed-response error
and the handle ID is as it was before the call. -/
theorem create_rejects_zero_id {Z σ : Type} (q : fmt.QuoteVerb) (client : API Z σ)
    (d : ResourceData) (s s1 s2 : σ) (z : Z) (j : LogpushJob)
    (hz : client.ZoneIDByName d.zone s = (Except.ok z, s1))
    (hc : client.CreateLogpushJob z (getJobFromResource d) s1 = (Except.ok j, s2))
    (hj : j.ID = 0) :
    (resourceCloudflareLogpushJobCreate q client d s).err
      = some "failed to find ID in Create response; resource was empty" ∧
    (resourceCloudflareLogpushJobCreate q client d s).d.Id = d.Id := by
  simp [resourceCloudflareLogpushJobCreate, hz, hc, hj, set_zone_id]

/-- Witness of C2: the stub store hands out ID 0 for the created job. -/
theorem create_rejects_zero_id_witness :
    stubClient.CreateLogpushJob 42 (getJobFromResource scenarioConfig) zeroIDStore
      = (Except.ok { scenarioJob with ID := 0 }, zeroJobStore) ∧
    (resourceCloudflareLogpushJobCreate plainQuote stubClient scenarioConfig zeroIDStore).err
      = some "failed to find ID in Create response; resource was empty" ∧
    (resourceCloudflareLogpushJobCreate plainQuote stubClient scenarioConfig zeroIDStore).d.Id
      = "" :=
  ⟨rfl,
    create_rejects_zero_id plainQuote stubClient scenarioConfig zeroIDStore zeroIDStore
      zeroJobStore 42 { scenarioJob with ID := 0 } rfl rfl rfl⟩

/-- C3: when the zone name resolves and the remote fetch fails with an error whose text
contains "404", `resourceCloudflareLogpushJobRead` returns no error and leaves the handle ID
and every configuration field as they were. -/
theorem read_not_found {Z σ : Type} (q : fmt.QuoteVerb) (client : API Z σ)
    (d : ResourceData) (s s1 s2 : σ) (z : Z) (e : String)
    (hz : client.ZoneIDByName d.zone s = (Except.ok z, s1))
    (hf : client.LogpushJob z (strconv.Atoi d.Id).1 s1 = (Except.error e, s2))
    (h404 : strings.Contains e "404" = true) :
    (resourceCloudflareLogpushJobRead q client d s).err = none ∧
    (resourceCloudflareLogpushJobRead q client d s).d = d := by
  simp only [ResourceData.Id] at hf
  simp [resourceCloudflareLogpushJobRead, hz, hf, h404, ResourceData.Id]

/-- Witness of C3: handle "9001" read against a stub store that holds no job. -/
theorem read_not_found_witness :
    stubClient.LogpushJob 42 (strconv.Atoi presentConfig.Id).1 scenarioStore
      = (Except.error "HTTP status 404: job not found", scenarioStore) ∧
    (resourceCloudflareLogpushJobRead plainQuote stubClient presentConfig scenarioStore).err
      = none ∧
    (resourceCloudflareLogpushJobRead plainQuote stubClient presentConfig scenarioStore).d
      = presentConfig :=
  ⟨rfl,
    read_not_found plainQuote stubClient presentConfig scenarioStore scenarioStore scenarioStore
      42 "HTTP status 404: job not found" rfl rfl (by decide)⟩

/-- C4: when the zone name resolves and the remote fetch returns, without error, a record
`j` with a non-zero ID, `resourceCloudflareLogpushJobRead` returns no error, the fields name,
enabled, logpull_options, destination_conf and ownership_challenge afterwards equal those of
`j` whatever they were before, and the zone field and the handle ID are not changed. -/
theorem read_overwrites_fields {Z σ : Type} (q : fmt.QuoteVerb) (client : API Z σ)
    (d : ResourceData) (s s1 s2 : σ) (z : Z) (j : LogpushJob)
    (hz : client.ZoneIDByName d.zone s = (Except.ok z, s1))
    (hf : client.LogpushJob z (strconv.Atoi d.Id).1 s1 = (Except.ok j, s2))
    (hj : j.ID ≠ 0) :
    (resourceCloudflareLogpushJobRead q client d s).err = none ∧
    (resourceCloudflareLogpushJobRead q client d s).d.name = j.Name ∧
    (resourceCloudflareLogpushJobRead q client d s).d.enabled = j.Enabled ∧
    (resourceCloudflareLogpushJobRead q client d s).d.logpull_options = j.LogpullOptions ∧
    (resourceCloudflareLogpushJobRead q client d s).d.destination_conf = j.DestinationConf ∧
    (resourceCloudflareLogpushJobRead q client d s).d.ownership_challenge
      = j.OwnershipChallenge ∧
    (resourceCloudflareLogpushJobRead q client d s).d.zone = d.zone ∧
    (resourceCloudflareLogpushJobRead q client d s).d.Id = d.Id := by
  simp only [ResourceData.Id] at hf
  simp [resourceCloudflareLogpushJobRead, hz, hf, hj, read_overwrite, ResourceData.Id]

/-- Witness of C4: the local state of job 9001 is overwritten by the stored record. -/
theorem read_overwrites_fields_witness :
    stubClient.LogpushJob 42 (strconv.Atoi presentConfig.Id).1 scenarioStoreAfter
      = (Except.ok scenarioJob, scenarioStoreAfter) ∧
    (resourceCloudflareLogpushJobRead plainQuote stubClient presentConfig scenarioStoreAfter).d
      = { scenarioConfig with id := "9001" } := by
  have h := read_overwrites_fields plainQuote stubClient presentConfig scenarioStoreAfter
    scenarioStoreAfter scenarioStoreAfter 42 scenarioJob rfl rfl (by decide)
  refine ⟨rfl, ?_⟩
  obtain ⟨_, h1, h2, h3, h4, h5, h6, h7⟩ := h
  cases hr : (resourceCloudflareLogpushJobRead plainQuote stubClient presentConfig
    scenarioStoreAfter).d
  rw [hr] at h1 h2 h3 h4 h5 h6 h7
  simp only [ResourceData.Id] at h1 h2 h3 h4 h5 h6 h7
  subst h1 h2 h3 h4 h5 h6 h7
  rfl

/-- C5: when the zone name resolves and the remote fetch returns, without error, a record
whose ID is 0, `resourceCloudflareLogpushJobRead` sets the handle ID to the empty string,
returns no error and overwrites no configuration field. -/
theorem read_zero_id_clears_handle {Z σ : Type} (q : fmt.QuoteVerb) (client : API Z σ)
    (d : ResourceData) (s s1 s2 : σ) (z : Z) (j : LogpushJob)
    (hz : client.ZoneIDByName d.zone s = (Except.ok z, s1))
    (hf : client.LogpushJob z (strconv.Atoi d.Id).1 s1 = (Except.ok j, s2))
    (hj : j.ID = 0) :
    (resourceCloudflareLogpushJobRead q client d s).d.Id = "" ∧
    (resourceCloudflareLogpushJobRead q client d s).err = none ∧
    (resourceCloudflareLogpushJobRead q client d s).d.zone = d.zone ∧
    (resourceCloudflareLogpushJobRead q client d s).d.name = d.name ∧
    (resourceCloudflareLogpushJobRead q client d s).d.enabled = d.enabled ∧
    (resourceCloudflareLogpushJobRead q client d s).d.logpull_options = d.logpull_options ∧
    (resourceCloudflareLogpushJobRead q client d s).d.destination_conf = d.destination_conf ∧
    (resourceCloudflareLogpushJobRead q client d s).d.ownership_challenge
      = d.ownership_challenge := by
  simp only [ResourceData.Id] at hf
  simp [resourceCloudflareLogpushJobRead, hz, hf, hj, ResourceData.SetId, ResourceData.Id]

/-- Witness of C5: a local state with handle "0" read against a stub store whose record has
ID 0 and other values than the local state. -/
theorem read_zero_id_clears_handle_witness :
    stubClient.LogpushJob 42 (strconv.Atoi "0").1 zeroJobStore
      = (Except.ok { scenarioJob with ID := 0 }, zeroJobStore) ∧
    (resourceCloudflareLogpushJobRead plainQuote stubClient { presentConfig with id := "0" }
      zeroJobStore).d.Id = "" ∧
    (resourceCloudflareLogpushJobRead plainQuote stubClient { presentConfig with id := "0" }
      zeroJobStore).d.name = "local-name" :=
  ⟨rfl,
    (read_zero_id_clears_handle plainQuote stubClient { presentConfig with id := "0" }
      zeroJobStore zeroJobStore zeroJobStore 42 { scenarioJob with ID := 0 } rfl rfl rfl).1,
    (read_zero_id_clears_handle plainQuote stubClient { presentConfig with id := "0" }
      zeroJobStore zeroJobStore zeroJobStore 42 { scenarioJob with ID := 0 } rfl rfl
      rfl).2.2.2.1⟩

/-- C6: against a remote side in which the zone resolves, create stores the submitted record
under a non-zero ID `n` of type `int` and fetch of job `n` returns the stored record,
`resourceCloudflareLogpushJobCreate` followed by `resourceCloudflareLogpushJobRead` both
succeed and leave every configuration field as it was supplied to Create (for every
handle, the unset one included); the handle is then the decimal string of `n`. -/
theorem create_then_read {Z σ : Type} (q : fmt.QuoteVerb) (client : API Z σ)
    (d : ResourceData) (s s1 s2 s3 s4 : σ) (z z2 : Z) (n : Int)
    (hn : n ≠ 0) (hlo : -9223372036854775808 ≤ n) (hhi : n ≤ 9223372036854775807)
    (hz : client.ZoneIDByName d.zone s = (Except.ok z, s1))
    (hc : client.CreateLogpushJob z (getJobFromResource d) s1
      = (Except.ok { getJobFromResource d with ID := n }, s2))
    (hz2 : client.ZoneIDByName d.zone s2 = (Except.ok z2, s3))
    (hf : client.LogpushJob z2 n s3 = (Except.ok { getJobFromResource d with ID := n }, s4)) :
    (resourceCloudflareLogpushJobCreate q client d s).err = none ∧
    (resourceCloudflareLogpushJobRead q client
      (resourceCloudflareLogpushJobCreate q client d s).d
      (resourceCloudflareLogpushJobCreate q client d s).remote).err = none ∧
    (resourceCloudflareLogpushJobRead q client
      (resourceCloudflareLogpushJobCreate q client d s).d
      (resourceCloudflareLogpushJobCreate q client d s).remote).d
      = { d with id := strconv.Itoa n } := by
  have hcreate : resourceCloudflareLogpushJobCreate q client d s
      = ⟨{ d with id := strconv.Itoa n }, none, s2⟩ := by
    simp [resourceCloudflareLogpushJobCreate, hz, hc, hn, set_zone_id, ResourceData.SetId]
  have hparse : (strconv.Atoi (strconv.Itoa n)).1 = n := by
    rw [strconv.Atoi_Itoa n hlo hhi]
  rw [hcreate]
  simp [resourceCloudflareLogpushJobRead, hz2, hf, hn, hparse, read_overwrite,
    ResourceData.Id, getJobFromResource]

/-- Witness of C6: the create scenario against the stub store. -/
theorem create_then_read_witness :
    stubClient.CreateLogpushJob 42 (getJobFromResource scenarioConfig) scenarioStore
      = (Except.ok scenarioJob, scenarioStoreAfter) ∧
    stubClient.LogpushJob 42 9001 scenarioStoreAfter
      = (Except.ok scenarioJob, scenarioStoreAfter) ∧
    (resourceCloudflareLogpushJobRead plainQuote stubClient
      (resourceCloudflareLogpushJobCreate plainQuote stubClient scenarioConfig scenarioStore).d
      (resourceCloudflareLogpushJobCreate plainQuote stubClient scenarioConfig
        scenarioStore).remote).d
      = { scenarioConfig with id := "9001" } :=
  ⟨rfl, rfl,
    (create_then_read plainQuote stubClient scenarioConfig scenarioStore scenarioStore
      scenarioStoreAfter scenarioStoreAfter scenarioStoreAfter 42 42 9001 (by decide)
      (by decide) (by decide) rfl rfl rfl rfl).2.2.trans (by decide)⟩

/-- C7, as the code has it: `getJobFromResource` copies enabled, name, logpull_options,
destination_conf and ownership_challenge unchanged. The ID is the integer denoted by the
handle when the handle is a valid decimal integer within the range of `int`; it is the
largest `int` when the handle denotes a larger integer and the smallest `int` when it
denotes a smaller one; for a handle that is not a decimal integer (the unset handle
included) it is 0, unless the digits after the optional sign already exceed 64 bits, in which
case it is again the largest or, after a minus sign, the smallest `int`. -/
theorem getJobFromResource_spec (d : ResourceData) :
    (getJobFromResource d).Enabled = d.enabled ∧
    (getJobFromResource d).Name = d.name ∧
    (getJobFromResource d).LogpullOptions = d.logpull_options ∧
    (getJobFromResource d).DestinationConf = d.destination_conf ∧
    (getJobFromResource d).OwnershipChallenge = d.ownership_challenge ∧
    (∀ v : Int, strconv.decimalValue d.Id = some v → -9223372036854775808 ≤ v →
      v ≤ 9223372036854775807 → (getJobFromResource d).ID = v) ∧
    (∀ v : Int, strconv.decimalValue d.Id = some v → 9223372036854775807 < v →
      (getJobFromResource d).ID = 9223372036854775807) ∧
    (∀ v : Int, strconv.decimalValue d.Id = some v → v < -9223372036854775808 →
      (getJobFromResource d).ID = -9223372036854775808) ∧
    (strconv.decimalValue d.Id = none → strconv.leadingValue d.Id ≤ strconv.maxUint64 →
      (getJobFromResource d).ID = 0) ∧
    (strconv.decimalValue d.Id = none → strconv.leadingValue d.Id > strconv.maxUint64 →
      (getJobFromResource d).ID
        = if (strconv.splitSign d.Id.toList).1 then -9223372036854775808
          else 9223372036854775807) ∧
    (d.Id = "" → (getJobFromResource d).ID = 0) := by
  refine ⟨rfl, rfl, rfl, rfl, rfl, ?_, ?_, ?_, ?_, ?_, ?_⟩
  · intro v hv hlo hhi
    show (strconv.Atoi d.Id).1 = v
    rw [strconv.Atoi_of_decimal d.Id v hv]
    omega
  · intro v hv hhi
    show (strconv.Atoi d.Id).1 = _
    rw [strconv.Atoi_of_decimal d.Id v hv]
    omega
  · intro v hv hlo
    show (strconv.Atoi d.Id).1 = _
    rw [strconv.Atoi_of_decimal d.Id v hv]
    omega
  · intro hv hlead
    show (strconv.Atoi d.Id).1 = _
    rw [strconv.Atoi_of_malformed d.Id hv, if_neg (by omega)]
  · intro hv hlead
    show (strconv.Atoi d.Id).1 = _
    rw [strconv.Atoi_of_malformed d.Id hv, if_pos hlead]
  · intro hid
    show (strconv.Atoi d.Id).1 = _
    rw [hid]
    decide

/-- Witness of C7: the handles "9001", unset, one beyond the largest `int`, one below the
smallest `int`, and twenty digits followed by a letter. -/
theorem getJobFromResource_spec_witness :
    (getJobFromResource presentConfig).ID = 9001 ∧
    (getJobFromResource scenarioConfig).ID = 0 ∧
    (getJobFromResource overflowConfig).ID = 9223372036854775807 ∧
    (getJobFromResource underflowConfig).ID = -9223372036854775808 ∧
    (getJobFromResource trailingLetterConfig).ID = 9223372036854775807 :=
  ⟨(getJobFromResource_spec presentConfig).2.2.2.2.2.1 9001 (by decide) (by decide)
      (by decide),
    (getJobFromResource_spec scenarioConfig).2.2.2.2.2.2.2.2.1 (by decide) (by decide),
    (getJobFromResource_spec overflowConfig).2.2.2.2.2.2.1 9223372036854775808 (by decide)
      (by decide),
    (getJobFromResource_spec underflowConfig).2.2.2.2.2.2.2.1 (-9223372036854775809)
      (by decide) (by decide),
    (getJobFromResource_spec trailingLetterConfig).2.2.2.2.2.2.2.2.2.1 (by decide)
      (by decide)⟩

/-- Counterexample to C7 as stated: the handle "9223372036854775808" is a valid decimal
integer, yet the ID built from it is neither the integer it denotes nor 0; and the handle
"99999999999999999999x" is not a decimal integer, yet the ID built from it is not 0. -/
theorem getJobFromResource_id_counterexample :
    strconv.decimalValue overflowConfig.Id = some 9223372036854775808 ∧
    (getJobFromResource overflowConfig).ID = 9223372036854775807 ∧
    (getJobFromResource overflowConfig).ID ≠ 9223372036854775808 ∧
    (getJobFromResource overflowConfig).ID ≠ 0 ∧
    strconv.decimalValue trailingLetterConfig.Id = none ∧
    (getJobFromResource trailingLetterConfig).ID ≠ 0 := by
  decide

/-- C8: when resolving the zone name fails, each of Create, Read, Update and Delete returns
an error (the zone error, carrying the text of the failure) and leaves the handle ID and
every configuration field unchanged; run against the recording client, the only call the
remote side has received is the zone lookup: no job is created, fetched, updated or
deleted. -/
theorem zone_failure_stops {Z σ : Type} (q : fmt.QuoteVerb) (client : API Z σ)
    (d : ResourceData) (s : σ) (e : String)
    (hz : (client.ZoneIDByName d.zone s).1 = Except.error e) :
    ((resourceCloudflareLogpushJobCreate q client d s).err
        = some ("error finding zone " ++ q.string d.zone ++ ": " ++ e) ∧
      (resourceCloudflareLogpushJobCreate q client d s).d = d ∧
      (resourceCloudflareLogpushJobCreate q client.recorded d (s, [])).remote.2
        = [Call.ZoneIDByName d.zone]) ∧
    ((resourceCloudflareLogpushJobRead q client d s).err
        = some ("error finding zone " ++ q.string d.zone ++ ": " ++ e) ∧
      (resourceCloudflareLogpushJobRead q client d s).d = d ∧
      (resourceCloudflareLogpushJobRead q client.recorded d (s, [])).remote.2
        = [Call.ZoneIDByName d.zone]) ∧
    ((resourceCloudflareLogpushJobUpdate q client d s).err
        = some ("error finding zone " ++ q.string d.zone ++ ": " ++ e) ∧
      (resourceCloudflareLogpushJobUpdate q client d s).d = d ∧
      (resourceCloudflareLogpushJobUpdate q client.recorded d (s, [])).remote.2
        = [Call.ZoneIDByName d.zone]) ∧
    ((resourceCloudflareLogpushJobDelete q client d s).err
        = some ("error finding zone " ++ q.string d.zone ++ ": " ++ e) ∧
      (resourceCloudflareLogpushJobDelete q client d s).d = d ∧
      (resourceCloudflareLogpushJobDelete q client.recorded d (s, [])).remote.2
        = [Call.ZoneIDByName d.zone]) := by
  have hrec : client.recorded.ZoneIDByName d.zone (s, [])
      = (Except.error e, ((client.ZoneIDByName d.zone s).2, [Call.ZoneIDByName d.zone])) := by
    simp [API.recorded, hz]
  have hplain : client.ZoneIDByName d.zone s
      = (Except.error e, (client.ZoneIDByName d.zone s).2) := by
    rw [← hz]
  simp only [resourceCloudflareLogpushJobCreate, resourceCloudflareLogpushJobRead,
    resourceCloudflareLogpushJobUpdate, resourceCloudflareLogpushJobDelete, hrec]
  rw [hplain]
  simp

/-- Witness of C8: the stub store does not list the zone of the configuration. -/
theorem zone_failure_stops_witness :
    (stubClient.ZoneIDByName unknownZoneConfig.zone scenarioStore).1
      = Except.error "zone could not be found" ∧
    (resourceCloudflareLogpushJobCreate plainQuote stubClient unknownZoneConfig
      scenarioStore).d = unknownZoneConfig ∧
    (resourceCloudflareLogpushJobCreate plainQuote stubClient.recorded unknownZoneConfig
      (scenarioStore, [])).remote.2 = [Call.ZoneIDByName "missing.example"] :=
  ⟨rfl,
    (zone_failure_stops plainQuote stubClient unknownZoneConfig scenarioStore
      "zone could not be found" rfl).1.2.1,
    (zone_failure_stops plainQuote stubClient unknownZoneConfig scenarioStore
      "zone could not be found" rfl).1.2.2⟩

/-- C9, as the code has it: when the zone name resolves and the remote job call fails,
Create, Update and Delete each return an error whose message names the attempted operation;
the message of Update and of Delete also names the target job ID, the one parsed from the
handle. -/
theorem remote_failure_named {Z σ : Type} (q : fmt.QuoteVerb) (client : API Z σ)
    (d : ResourceData) (s s1 : σ) (z : Z)
    (hz : client.ZoneIDByName d.zone s = (Except.ok z, s1)) :
    (∀ (e : String) (s2 : σ),
      client.CreateLogpushJob z (getJobFromResource d) s1 = (Except.error e, s2) →
      ∃ msg, (resourceCloudflareLogpushJobCreate q client d s).err = some msg ∧
        strings.Contains msg "creating logpush job" = true) ∧
    (∀ (e : String) (s2 : σ),
      client.UpdateLogpushJob z (getJobFromResource d).ID (getJobFromResource d) s1
        = (some e, s2) →
      ∃ msg, (resourceCloudflareLogpushJobUpdate q client d s).err = some msg ∧
        strings.Contains msg "updating logpush job" = true ∧
        strings.Contains msg (strconv.Itoa (strconv.Atoi d.Id).1) = true) ∧
    (∀ (e : String) (s2 : σ),
      client.DeleteLogpushJob z (getJobFromResource d).ID s1 = (some e, s2) →
      ∃ msg, (resourceCloudflareLogpushJobDelete q client d s).err = some msg ∧
        strings.Contains msg "deleting logpush job" = true ∧
        strings.Contains msg (strconv.Itoa (strconv.Atoi d.Id).1) = true) := by
  refine ⟨?_, ?_, ?_⟩
  · intro e s2 hc
    refine ⟨"error creating logpush job", ?_, by decide⟩
    simp [resourceCloudflareLogpushJobCreate, hz, hc]
  · intro e s2 hu
    refine ⟨"error updating logpush job: " ++ strconv.Itoa (strconv.Atoi d.Id).1, ?_, ?_, ?_⟩
    · simp only [resourceCloudflareLogpushJobUpdate, hz, hu]
      rfl
    · exact strings.Contains_append "error " "updating logpush job"
        (": " ++ strconv.Itoa (strconv.Atoi d.Id).1)
    · have h := strings.Contains_append "error updating logpush job: "
        (strconv.Itoa (strconv.Atoi d.Id).1) ""
      simpa using h
  · intro e s2 hd
    refine ⟨"error deleting logpush job: " ++ strconv.Itoa (strconv.Atoi d.Id).1, ?_, ?_, ?_⟩
    · simp only [resourceCloudflareLogpushJobDelete, hz, hd]
      rfl
    · exact strings.Contains_append "error " "deleting logpush job"
        (": " ++ strconv.Itoa (strconv.Atoi d.Id).1)
    · have h := strings.Contains_append "error deleting logpush job: "
        (strconv.Itoa (strconv.Atoi d.Id).1) ""
      simpa using h

/-- Witness of C9: against the stub store without jobs, Update and Delete of job 9001 fail
remotely, and Create of a configuration without destination fails remotely. -/
theorem remote_failure_named_witness :
    (∃ msg, (resourceCloudflareLogpushJobCreate plainQuote stubClient noDestinationConfig
        scenarioStore).err = some msg ∧
      strings.Contains msg "creating logpush job" = true) ∧
    (∃ msg, (resourceCloudflareLogpushJobUpdate plainQuote stubClient presentConfig
        scenarioStore).err = some msg ∧
      strings.Contains msg "updating logpush job" = true ∧
      strings.Contains msg (strconv.Itoa (strconv.Atoi presentConfig.Id).1) = true) ∧
    (∃ msg, (resourceCloudflareLogpushJobDelete plainQuote stubClient presentConfig
        scenarioStore).err = some msg ∧
      strings.Contains msg "deleting logpush job" = true ∧
      strings.Contains msg (strconv.Itoa (strconv.Atoi presentConfig.Id).1) = true) :=
  ⟨(remote_failure_named plainQuote stubClient noDestinationConfig scenarioStore scenarioStore
      42 rfl).1 "HTTP status 400: destination_conf is required" scenarioStore rfl,
    (remote_failure_named plainQuote stubClient presentConfig scenarioStore scenarioStore
      42 rfl).2.1 "HTTP status 404: job not found" scenarioStore rfl,
    (remote_failure_named plainQuote stubClient presentConfig scenarioStore scenarioStore
      42 rfl).2.2 "HTTP status 404: job not found" scenarioStore rfl⟩

/-- Counterexample to C9 as stated: the remote update of job 9001 fails with the text
"HTTP status 404: job not found", and the message Update returns does not contain that
text; the remote create fails with a text of its own, and the message Create returns
contains neither that text nor any job ID. -/
theorem remote_failure_counterexample :
    stubClient.UpdateLogpushJob 42 9001 (getJobFromResource presentConfig) scenarioStore
      = (some "HTTP status 404: job not found", scenarioStore) ∧
    (resourceCloudflareLogpushJobUpdate plainQuote stubClient presentConfig scenarioStore).err
      = some "error updating logpush job: 9001" ∧
    strings.Contains "error updating logpush job: 9001" "HTTP status 404: job not found"
      = false ∧
    stubClient.CreateLogpushJob 42 (getJobFromResource noDestinationConfig) scenarioStore
      = (Except.error "HTTP status 400: destination_conf is required", scenarioStore) ∧
    (resourceCloudflareLogpushJobCreate plainQuote stubClient noDestinationConfig
      scenarioStore).err = some "error creating logpush job" ∧
    strings.Contains "error creating logpush job"
      "HTTP status 400: destination_conf is required" = false :=
  ⟨rfl, by decide, by decide, rfl, by decide, by decide⟩

/-- C10: for every local state and every remote client, `resourceCloudflareLogpushJobUpdate`
leaves the zone field, the other configuration fields and the handle ID as they were. Run
against the recording client: when the zone resolves to `z` the remote side receives, after
the zone lookup, exactly one update,
addressed to `z` and the ID parsed from the handle and carrying the record built by
`getJobFromResource`; when the zone does not resolve it receives the zone lookup only. -/
theorem update_frame {Z σ : Type} (q : fmt.QuoteVerb) (client : API Z σ)
    (d : ResourceData) (s : σ) :
    (resourceCloudflareLogpushJobUpdate q client d s).d = d ∧
    (resourceCloudflareLogpushJobUpdate q client.recorded d (s, [])).remote.2
      = match (client.ZoneIDByName d.zone s).1 with
        | Except.ok z =>
          [Call.ZoneIDByName d.zone,
            Call.UpdateLogpushJob z (strconv.Atoi d.Id).1 (getJobFromResource d)]
        | Except.error _ => [Call.ZoneIDByName d.zone] := by
  rw [← (recorded_update q client d s []).1]
  cases hz : (client.ZoneIDByName d.zone s).1 with
  | error e =>
    have hrec : client.recorded.ZoneIDByName d.zone (s, [])
        = (Except.error e, ((client.ZoneIDByName d.zone s).2, [Call.ZoneIDByName d.zone])) := by
      simp [API.recorded, hz]
    simp [resourceCloudflareLogpushJobUpdate, hrec]
  | ok z =>
    have hrec : client.recorded.ZoneIDByName d.zone (s, [])
        = (Except.ok z, ((client.ZoneIDByName d.zone s).2, [Call.ZoneIDByName d.zone])) := by
      simp [API.recorded, hz]
    have hid : (getJobFromResource d).ID = (strconv.Atoi d.Id).1 := rfl
    cases hu : (client.UpdateLogpushJob z (strconv.Atoi d.Id).1 (getJobFromResource d)
        (client.ZoneIDByName d.zone s).2).1 with
    | none =>
      have hrec2 : client.recorded.UpdateLogpushJob z (strconv.Atoi d.Id).1
          (getJobFromResource d) ((client.ZoneIDByName d.zone s).2, [Call.ZoneIDByName d.zone])
          = (none, ((client.UpdateLogpushJob z (strconv.Atoi d.Id).1 (getJobFromResource d)
              (client.ZoneIDByName d.zone s).2).2,
            [Call.ZoneIDByName d.zone,
              Call.UpdateLogpushJob z (strconv.Atoi d.Id).1 (getJobFromResource d)])) := by
        simp [API.recorded, hu]
      simp [resourceCloudflareLogpushJobUpdate, hrec, hid, hrec2, set_zone_id]
    | some e =>
      have hrec2 : client.recorded.UpdateLogpushJob z (strconv.Atoi d.Id).1
          (getJobFromResource d) ((client.ZoneIDByName d.zone s).2, [Call.ZoneIDByName d.zone])
          = (some e, ((client.UpdateLogpushJob z (strconv.Atoi d.Id).1 (getJobFromResource d)
              (client.ZoneIDByName d.zone s).2).2,
            [Call.ZoneIDByName d.zone,
              Call.UpdateLogpushJob z (strconv.Atoi d.Id).1 (getJobFromResource d)])) := by
        simp [API.recorded, hu]
      simp [resourceCloudflareLogpushJobUpdate, hrec, hid, hrec2, set_zone_id]

end cloudflare
